import Mathlib

/-! RpcClient: a verification development

A shallow embedding of `src/RpcError.js`, `src/Errors.js` and `src/RpcClient.js`.

* JavaScript values are the flat type `JsVal`; objects and functions are references into
  a `Heap` of property tables, so that `===` on objects is reference identity.
* Effects that leave the client (calls on the transport provider, signals on the event
  emitter, hook invocations, promise settlements) are recorded, in program order, in a
  trace of `Event`s carried by the state `St`.
* The packages `@adt/message-tracker` and `@adt/event-emitter` and the module
  `./emptyFunction` are imported by the sources but are not part of them; they are
  modelled at their interface and marked as such.
-/

namespace RpcClientJs

/-! ## JavaScript values -/

/-- A JavaScript value. Objects and functions are references (`ref`) into a `Heap`. -/
inductive JsVal where
  | undefined
  | null
  | bool (b : Bool)
  /-- A number whose value is an integer. -/
  | number (n : Int)
  /-- A number whose value is not an integer (`1.5`, `NaN`, `Infinity`), kept symbolic. -/
  | nonIntegerNumber (numeral : String)
  | string (s : String)
  | function (ref : Nat)
  | object (ref : Nat)
  deriving DecidableEq, Repr

/-- Property table of one object: own and inherited properties, first binding wins. -/
abbrev Props := List (String × JsVal)

/-- The object heap: reference ↦ property table. -/
abbrev Heap := List (Nat × Props)

/-- What a `throw` carries. -/
inductive Thrown where
  /-- Statement `throw new Error(message)` or `throw Error(message)`. -/
  | error (message : String)
  /-- Statement `throw "..."`: a bare string is thrown. -/
  | str (s : String)
  /-- A `TypeError` raised by the language itself (property of `undefined`/`null`,
  call of a non-function, `in` applied to a primitive). -/
  | typeError (what : String)
  deriving DecidableEq, Repr

/-- The `typeof` operator. -/
def typeof : JsVal → String
  | .undefined => "undefined"
  | .null => "object"
  | .bool _ => "boolean"
  | .number _ => "number"
  | .nonIntegerNumber _ => "number"
  | .string _ => "string"
  | .function _ => "function"
  | .object _ => "object"

/-- Operator `typeof x` on a bare identifier `x`: an identifier that resolves to no
binding (`none`) yields `"undefined"` instead of raising a `ReferenceError`. -/
def typeofIdent : Option JsVal → String
  | none => "undefined"
  | some v => typeof v

/-- Property table of a value: that of the heap for an object, empty otherwise. -/
def propsOf (h : Heap) : JsVal → Props
  | .object r => (h.lookup r).getD []
  | _ => []

/-- Property read `v.k`: a `TypeError` on `undefined` and `null`, `undefined` when the
property is not there. -/
def getProp (h : Heap) (v : JsVal) (k : String) : Except Thrown JsVal :=
  match v with
  | .undefined => .error (.typeError ("cannot read property " ++ k ++ " of undefined"))
  | .null => .error (.typeError ("cannot read property " ++ k ++ " of null"))
  | _ => .ok (((propsOf h v).lookup k).getD .undefined)

/-- Property read on a value already known to be neither `undefined` nor `null`. -/
def prop (h : Heap) (v : JsVal) (k : String) : JsVal :=
  ((propsOf h v).lookup k).getD .undefined

/-- Operator `k in v`: a `TypeError` unless `v` is an object or a function. -/
def hasProp (h : Heap) (k : String) (v : JsVal) : Except Thrown Bool :=
  match v with
  | .object _ => .ok ((propsOf h v).lookup k).isSome
  | .function _ => .ok false
  | _ => .error (.typeError ("cannot use in operator to search for " ++ k))

/-- Method call `v.k(...)` on an external collaborator: a `TypeError` when `v.k` is not
callable; the call itself is assumed to return normally. -/
def callMethod (h : Heap) (v : JsVal) (k : String) : Except Thrown Unit := do
  let f ← getProp h v k
  if typeof f = "function" then pure () else throw (.typeError (k ++ " is not a function"))

/-! ## `src/RpcError.js` and `src/Errors.js` -/

/-- An object whose prototype is `RpcError.prototype`. `frozen` records `Object.freeze`;
in the objects of `RpcClient.ERRORS` only `data` is writable. -/
structure RpcErrorObject where
  code : JsVal
  message : JsVal
  data : JsVal
  frozen : Bool
  deriving DecidableEq, Repr

/-- Body of `RpcError` run with `this` an instance (lines 15-27 of `RpcError.js`).
`args` is the binding the free identifier `args` of line 15 resolves to; the module
declares none, so it is whatever the global scope holds (`none`: no such global). -/
def RpcError.construct (args : Option JsVal) (h : Heap) (o : JsVal) :
    Except Thrown RpcErrorObject := do
  if typeofIdent args = "undefined" then
    throw (.error "Required parameters object not present")
  let code ← getProp h o "code"
  if typeof code ≠ "number" then
    throw (.str "Error code must be integer")
  let message ← (do if (← hasProp h "message" o) then getProp h o "message"
                    else pure (JsVal.string ""))
  let data ← getProp h o "data"
  pure { code := code, message := message, data := data, frozen := true }

/-- The function `RpcError(o)`, called with `new` (`calledWithNew = true`) or without:
without, `this instanceof RpcError` is false and it returns `new RpcError(o)`. -/
def RpcError (args : Option JsVal) (h : Heap) (calledWithNew : Bool) (o : JsVal) :
    Except Thrown RpcErrorObject :=
  if calledWithNew = false then RpcError.construct args h o
  else RpcError.construct args h o

/-- Constant `PARSE_ERROR` of `Errors.js`. The five constants of that file are frozen and
have no own `data`; the prototype holds `undefined`. -/
def PARSE_ERROR : RpcErrorObject :=
  { code := .number (-32700), message := .string "Parse error", data := .undefined,
    frozen := true }

/-- Constant `INVALID_REQUEST` of `Errors.js`. -/
def INVALID_REQUEST : RpcErrorObject :=
  { code := .number (-32600), message := .string "Invalid Request", data := .undefined,
    frozen := true }

/-- Constant `METHOD_NOT_FOUND` of `Errors.js`. -/
def METHOD_NOT_FOUND : RpcErrorObject :=
  { code := .number (-32601), message := .string "Method not found", data := .undefined,
    frozen := true }

/-- Constant `INVALID_PARAMS` of `Errors.js`. -/
def INVALID_PARAMS : RpcErrorObject :=
  { code := .number (-32602), message := .string "Invalid params", data := .undefined,
    frozen := true }

/-- Constant `INTERNAL_ERROR` of `Errors.js`. -/
def INTERNAL_ERROR : RpcErrorObject :=
  { code := .number (-32603), message := .string "Internal error", data := .undefined,
    frozen := true }

/-- The table `RpcClient.ERRORS` (lines 241-263 of `RpcClient.js`): three objects, not
frozen, each with a writable `data`. The table is module-level state. -/
structure Errors where
  NO_ERROR : RpcErrorObject
  TIMEOUT_EXCEEDED : RpcErrorObject
  INVALID_STATE_ERR : RpcErrorObject
  deriving DecidableEq, Repr

/-- The table as the module creates it. -/
def ERRORS : Errors :=
  { NO_ERROR :=
      { code := .number (-32000), message := .string "No error", data := .undefined,
        frozen := false }
    TIMEOUT_EXCEEDED :=
      { code := .number (-32001), message := .string "Waiting for response timeout exceeded",
        data := .undefined, frozen := false }
    INVALID_STATE_ERR :=
      { code := .number (-32002),
        message := .string "WebSocket is already in CLOSING or CLOSED state",
        data := .undefined, frozen := false } }

/-- A reference to one of the three objects of `RpcClient.ERRORS`. Passing
`RpcClient.ERRORS.X` around passes this reference, never a copy. -/
inductive ErrorRef where
  | NO_ERROR
  | TIMEOUT_EXCEEDED
  | INVALID_STATE_ERR
  deriving DecidableEq, Repr

/-- Dereference: the object a reference denotes in the current table. -/
def Errors.deref (t : Errors) : ErrorRef → RpcErrorObject
  | .NO_ERROR => t.NO_ERROR
  | .TIMEOUT_EXCEEDED => t.TIMEOUT_EXCEEDED
  | .INVALID_STATE_ERR => t.INVALID_STATE_ERR

/-- The eight built-in error values with their symbolic names. -/
def builtinErrors : List (String × RpcErrorObject) :=
  [("PARSE_ERROR", PARSE_ERROR), ("INVALID_REQUEST", INVALID_REQUEST),
   ("METHOD_NOT_FOUND", METHOD_NOT_FOUND), ("INVALID_PARAMS", INVALID_PARAMS),
   ("INTERNAL_ERROR", INTERNAL_ERROR), ("NO_ERROR", ERRORS.NO_ERROR),
   ("TIMEOUT_EXCEEDED", ERRORS.TIMEOUT_EXCEEDED),
   ("INVALID_STATE_ERR", ERRORS.INVALID_STATE_ERR)]

/-- Code and message of an error value, when they are an integer and a string. -/
def codeAndMessage (e : RpcErrorObject) : Option (Int × String) :=
  match e.code, e.message with
  | .number n, .string s => some (n, s)
  | _, _ => none

/-! ## Collaborators of `src/RpcClient.js` -/

/-- A hook of the client: `onMatchedMessage` or `onUnmatchedMessage` after line 66. -/
inductive Hook where
  /-- Modelled from the spec: the module `./emptyFunction` is not among the sources; the
  spec calls the default hook a no-op (it has no effect and returns `undefined`). -/
  | emptyFunction
  /-- The callback `f.bind(that)` for a function `f` of the configuration. -/
  | bound (f : JsVal)
  deriving DecidableEq, Repr

/-- Modelled from the spec: a Pending Request Entry of `@adt/message-tracker`, holding
what `register` was given, the promise it returned and the absolute expiry. -/
structure PendingEntry where
  promise : Nat
  message : JsVal
  filter : JsVal
  timeoutRejectWith : ErrorRef
  enableCallbacks : JsVal
  expiry : Option Int
  deriving DecidableEq, Repr

/-- Why a promise is rejected: with (a reference to) an object of `RpcClient.ERRORS`, or
with some other value. -/
inductive Reason where
  | errorObject (r : ErrorRef)
  | value (v : JsVal)
  deriving DecidableEq, Repr

/-- An effect that leaves the client, or a promise settlement. -/
inductive Event where
  /-- Signal `emitter.emit(name, ...args)`. -/
  | emit (name : String) (args : List JsVal)
  /-- Call `transportProvider.connect()` made for the `connect()` promise `promise`. -/
  | transportConnect (promise : Nat)
  /-- Call `transportProvider.send(payload)`. -/
  | transportSend (payload : JsVal)
  /-- Call `transportProvider.disconnect()`. -/
  | transportDisconnect
  /-- Call `messageTracker.register(...)` that created the entry. -/
  | register (e : PendingEntry)
  /-- Call `onMatchedMessage({message, emitter})`; `fn` is the hook that ran. -/
  | onMatchedMessage (fn : Hook) (message : JsVal)
  /-- Call `onUnmatchedMessage({message, emitter})`; `fn` is the hook that ran. -/
  | onUnmatchedMessage (fn : Hook) (message : JsVal)
  /-- The promise `promise` is resolved with `value`. -/
  | resolve (promise : Nat) (value : JsVal)
  /-- The promise `promise` is rejected with `reason`. -/
  | reject (promise : Nat) (reason : Reason)
  deriving DecidableEq, Repr

/-- Modelled from the spec: the Pending-Request Tracker made by `MessageTracker(...)` of
`@adt/message-tracker` (spec 4.3): its two settings and the tracked set, oldest first. -/
structure MessageTracker where
  timeout : JsVal
  checkInterval : JsVal
  entries : List PendingEntry
  deriving DecidableEq, Repr

/-- Modelled from the spec: `expiry = now + configured timeout`; a timeout that is not a
number gives no expiry. -/
def expiryAt (now : Int) : JsVal → Option Int
  | .number n => some (now + n)
  | _ => none

/-- Modelled from the spec: `register` creates an entry with `expiry = now + timeout`
and appends it to the tracked set; `promise` names the future it returns. -/
def MessageTracker.register (t : MessageTracker) (now : Int) (promise : Nat)
    (message filter : JsVal) (timeoutRejectWith : ErrorRef) (enableCallbacks : JsVal) :
    PendingEntry × MessageTracker :=
  let e : PendingEntry :=
    { promise := promise, message := message, filter := filter,
      timeoutRejectWith := timeoutRejectWith, enableCallbacks := enableCallbacks,
      expiry := expiryAt now t.timeout }
  (e, { t with entries := t.entries ++ [e] })

/-- Scan in insertion order for the first entry whose `filter(candidate)` is true; gives
that entry and the tracked set without it. `call f m` is the truth value of `f(m)`. -/
def firstMatch (call : JsVal → JsVal → Bool) (m : JsVal) :
    List PendingEntry → Option (PendingEntry × List PendingEntry)
  | [] => none
  | e :: es =>
    if call e.filter m then some (e, es)
    else match firstMatch call m es with
      | some (x, rest) => some (x, e :: rest)
      | none => none

/-- Modelled from the spec: `matchMessage(candidate)` returns whether the message was
UNMATCHED. The first matching entry is removed and its future resolved with the candidate;
when none matches nothing changes. -/
def MessageTracker.matchMessage (call : JsVal → JsVal → Bool) (t : MessageTracker)
    (m : JsVal) : Bool × MessageTracker × List Event :=
  match firstMatch call m t.entries with
  | some (e, rest) => (false, { t with entries := rest }, [Event.resolve e.promise m])
  | none => (true, t, [])

/-- Modelled from the spec: an entry has expired when its expiry has passed. -/
def PendingEntry.expired (now : Int) (e : PendingEntry) : Bool :=
  match e.expiry with
  | some x => decide (x ≤ now)
  | none => false

/-- Modelled from the spec: the sweep removes every expired entry and rejects its future
with the entry's timeout error value (the value `register` was handed, not a copy). -/
def MessageTracker.sweep (t : MessageTracker) (now : Int) : MessageTracker × List Event :=
  ({ t with entries := t.entries.filter (fun e => !e.expired now) },
   (t.entries.filter (fun e => e.expired now)).map
     (fun e => Event.reject e.promise (.errorObject e.timeoutRejectWith)))

/-- The object `config` of lines 69-72. -/
structure Config where
  messageCheckInterval : JsVal
  messageTimeout : JsVal
  deriving DecidableEq, Repr

/-- The closure of one `RpcClient(c)` call: the variables its methods close over. -/
structure Client where
  /-- The configuration object itself; `sendRequest` reads `c.messageFilter` from it. -/
  c : JsVal
  /-- Line 41, `let connected = false`, read by the getter `connected` of line 90. -/
  connected : Bool
  onMatchedMessage : Hook
  onUnmatchedMessage : Hook
  config : Config
  transportProvider : JsVal
  messageTracker : MessageTracker
  deriving DecidableEq, Repr

/-- The constructor `RpcClient(c)`, lines 26-84 and 237. The calls `EventEmitter()`,
`MessageTracker(...)`, `transportProvider.onMessage(...)` and
`transportProvider.onDisconnect(...)` are assumed to return normally when callable. -/
def RpcClient (h : Heap) (c : JsVal) : Except Thrown Client := do
  if typeof c = "undefined" ∨ c = .null then
    throw (.error "Missing configuration object")
  if typeof (← getProp h c "transportProvider") = "undefined" then
    throw (.error "Required param 'transportProvider' is not defined")
  if typeof (← getProp h c "messageFilter") = "undefined" then
    throw (.error "Required param 'messageFilter' is not defined")
  let onMatchedMessage ← (do
    if (← hasProp h "onMatchedMessage" c) then
      let f ← getProp h c "onMatchedMessage"
      if typeof f ≠ "function" then
        throw (.error "onMatchedMessage callback is not a function")
      else pure (Hook.bound f)
    else pure Hook.emptyFunction)
  let onUnmatchedMessage ← (do
    if (← hasProp h "onUnmatchedMessage" c) then
      let f ← getProp h c "onUnmatchedMessage"
      if typeof f ≠ "function" then
        throw (.error "onUnmatchedMessage callback is not a function")
      else pure (Hook.bound f)
    else pure Hook.emptyFunction)
  let messageCheckInterval ← (do
    if (← hasProp h "messageCheckInterval" c) then getProp h c "messageCheckInterval"
    else pure (JsVal.number 1000))
  let messageTimeout ← (do
    if (← hasProp h "messageTimeout" c) then getProp h c "messageTimeout"
    else pure (JsVal.number 5000))
  let config : Config :=
    { messageCheckInterval := messageCheckInterval, messageTimeout := messageTimeout }
  let transportProvider ← getProp h c "transportProvider"
  callMethod h transportProvider "onMessage"
  callMethod h transportProvider "onDisconnect"
  let messageTracker : MessageTracker :=
    { timeout := config.messageTimeout, checkInterval := config.messageCheckInterval,
      entries := [] }
  pure { c := c, connected := false, onMatchedMessage := onMatchedMessage,
         onUnmatchedMessage := onUnmatchedMessage, config := config,
         transportProvider := transportProvider, messageTracker := messageTracker }

/-! ## The methods of the client -/

/-- Behaviour of code outside the sources that the methods call back into. -/
structure Env where
  /-- Truth value of the call `f(m)` of a filter `f` on a candidate message `m`. -/
  call : JsVal → JsVal → Bool
  /-- Messages the transport hands to its `onMessage` handler from inside `send(payload)`,
  before `send` returns (none for a transport that only replies later). -/
  replies : JsVal → List JsVal

/-- Everything the methods read or write. -/
structure St where
  heap : Heap
  /-- The module-level table `RpcClient.ERRORS`. -/
  errors : Errors
  client : Client
  /-- What `transportProvider.isConnected()` returns at this moment. -/
  isConnected : JsVal
  /-- Current time in milliseconds. -/
  clock : Int
  /-- Name of the next promise to be created. -/
  nextPromise : Nat
  trace : List Event
  deriving DecidableEq, Repr

/-- The promise a method returns. -/
inductive Promise where
  /-- Made by `Promise.reject(reason)`: rejected from the start. -/
  | rejected (reason : Reason)
  /-- A promise created pending; its settlement shows in the trace under `id`. -/
  | pending (id : Nat)
  deriving DecidableEq, Repr

/-- Assignment `RpcClient.ERRORS.X.data = v` (the three objects are never frozen). -/
def Errors.setData (t : Errors) (r : ErrorRef) (v : JsVal) : Errors :=
  match r with
  | .NO_ERROR => { t with NO_ERROR := { t.NO_ERROR with data := v } }
  | .TIMEOUT_EXCEEDED => { t with TIMEOUT_EXCEEDED := { t.TIMEOUT_EXCEEDED with data := v } }
  | .INVALID_STATE_ERR => { t with INVALID_STATE_ERR := { t.INVALID_STATE_ERR with data := v } }

/-- The getter `connected` (line 90). -/
def connectedGetter (s : St) : Bool := s.client.connected

/-- The handler `onMessage(message)` (lines 208-220) the constructor hands to the
transport. -/
def onMessage (env : Env) (s : St) (message : JsVal) : St :=
  let r := s.client.messageTracker.matchMessage env.call message
  let s1 : St :=
    { s with client := { s.client with messageTracker := r.2.1 }, trace := s.trace ++ r.2.2 }
  if !r.1 then
    { s1 with trace := s1.trace ++ [Event.onMatchedMessage s1.client.onMatchedMessage message] }
  else
    { s1 with
      trace := s1.trace ++ [Event.onUnmatchedMessage s1.client.onUnmatchedMessage message] }

/-- The call `transportProvider.send(payload)`: the transport may run the `onMessage`
handler on replies before it returns. -/
def transportSend (env : Env) (s : St) (payload : JsVal) : St :=
  (env.replies payload).foldl (onMessage env)
    { s with trace := s.trace ++ [Event.transportSend payload] }

/-- The method `sendRequest(req, enableCallbacks)` (lines 148-176). The `context: this`
handed to `register` plays no part and is left out. -/
def sendRequest (env : Env) (s : St) (req enableCallbacks : JsVal) : Promise × St :=
  let rejectWith := ErrorRef.TIMEOUT_EXCEEDED
  let s0 : St := { s with errors := s.errors.setData rejectWith req }
  if s0.isConnected = JsVal.bool true then
    let r := s0.client.messageTracker.register s0.clock s0.nextPromise req
      (prop s0.heap s0.client.c "messageFilter") rejectWith enableCallbacks
    let s1 : St :=
      { s0 with client := { s0.client with messageTracker := r.2 },
                nextPromise := s0.nextPromise + 1,
                trace := s0.trace ++ [Event.register r.1] }
    (Promise.pending r.1.promise, transportSend env s1 req)
  else
    (Promise.rejected (.errorObject .INVALID_STATE_ERR), s0)

/-- The method `sendEvent(evt)` (lines 188-201); it returns a reference into
`RpcClient.ERRORS`. -/
def sendEvent (env : Env) (s : St) (evt : JsVal) : ErrorRef × St :=
  if s.isConnected = JsVal.bool true then
    (ErrorRef.NO_ERROR, transportSend env s evt)
  else
    (ErrorRef.INVALID_STATE_ERR, s)

/-- The method `connect()` up to its return (lines 117-135): the executor emits
`connecting` and calls `transportProvider.connect()`; the promise is returned pending. -/
def connect (s : St) : Promise × St :=
  (Promise.pending s.nextPromise,
   { s with nextPromise := s.nextPromise + 1,
            trace := s.trace ++ [Event.emit "connecting" [], Event.transportConnect s.nextPromise] })

/-- How the promise of `transportProvider.connect()` settles. -/
inductive ConnectOutcome where
  | resolves
  | rejects (e : JsVal)
  deriving DecidableEq, Repr

/-- The reactions `.then(...)` and `.catch(...)` of lines 122-131, run when the transport's
promise made for `promise` settles. The call `emitter.emit` is taken to return normally. -/
def connectSettled (s : St) (promise : Nat) : ConnectOutcome → St
  | .resolves =>
    { s with trace := s.trace ++ [Event.emit "connected" [], Event.resolve promise .undefined] }
  | .rejects e =>
    { s with trace := s.trace ++ [Event.reject promise (.value e)] }

/-- The handler `onDisconnect(evt)` (lines 222-224). -/
def onDisconnect (s : St) (evt : JsVal) : St :=
  { s with trace := s.trace ++ [Event.emit "disconnected" [evt]] }

/-- The method `disconnect()` (lines 232-235). -/
def disconnect (s : St) : St :=
  { s with trace := s.trace ++ [Event.transportDisconnect] }

/-- The periodic sweep of the tracker, run by its timer. -/
def sweep (s : St) : St :=
  let r := s.client.messageTracker.sweep s.clock
  { s with client := { s.client with messageTracker := r.1 }, trace := s.trace ++ r.2 }

/-- One thing that can happen to a client: a method call, or a move of its surroundings. -/
inductive Action where
  | connect
  | connectSettled (promise : Nat) (outcome : ConnectOutcome)
  | sendRequest (req enableCallbacks : JsVal)
  | sendEvent (evt : JsVal)
  | disconnect
  /-- The transport delivers an inbound message to `onMessage`. -/
  | message (m : JsVal)
  /-- The transport reports a disconnect to `onDisconnect`. -/
  | disconnected (evt : JsVal)
  /-- The transport changes what `isConnected()` answers. -/
  | transportReports (isConnected : JsVal)
  /-- Time passes. -/
  | tick (ms : Nat)
  /-- The timer of the tracker fires. -/
  | sweep
  deriving DecidableEq, Repr

/-- Effect of one action on the state. -/
def step (env : Env) (s : St) : Action → St
  | .connect => (connect s).2
  | .connectSettled p o => connectSettled s p o
  | .sendRequest req cb => (sendRequest env s req cb).2
  | .sendEvent evt => (sendEvent env s evt).2
  | .disconnect => disconnect s
  | .message m => onMessage env s m
  | .disconnected evt => onDisconnect s evt
  | .transportReports v => { s with isConnected := v }
  | .tick ms => { s with clock := s.clock + ms }
  | .sweep => sweep s

/-- Effect of a sequence of actions. -/
def run (env : Env) (s : St) (as : List Action) : St :=
  as.foldl (step env) s

/-- The state right after `RpcClient(c)` returned `client`: fresh error table, transport
not yet connected, nothing recorded. -/
def boot (h : Heap) (client : Client) : St :=
  { heap := h, errors := ERRORS, client := client, isConnected := .bool false, clock := 0,
    nextPromise := 0, trace := [] }

/-! ## Reading a trace -/

/-- Payloads of the `transportProvider.send` calls of a trace, in order. -/
def sends (tr : List Event) : List JsVal :=
  tr.filterMap fun
    | .transportSend p => some p
    | _ => none

/-- Entries of the `messageTracker.register` calls of a trace, in order. -/
def registrations (tr : List Event) : List PendingEntry :=
  tr.filterMap fun
    | .register e => some e
    | _ => none

/-- Hook invocations of a trace, in order. -/
def hookCalls (tr : List Event) : List Event :=
  tr.filter fun
    | .onMatchedMessage _ _ => true
    | .onUnmatchedMessage _ _ => true
    | _ => false

/-! ## Concrete clients and scenarios -/

/-- A heap with a configuration object (1) and a transport provider (2). -/
def demoHeap : Heap :=
  [(1, [("transportProvider", .object 2), ("messageFilter", .function 3)]),
   (2, [("connect", .function 10), ("disconnect", .function 11),
        ("isConnected", .function 12), ("send", .function 13),
        ("onMessage", .function 14), ("onDisconnect", .function 15)])]

/-- The client `RpcClient(c)` builds from object 1 of `demoHeap`. -/
def demoClient : Client :=
  { c := .object 1, connected := false, onMatchedMessage := .emptyFunction,
    onUnmatchedMessage := .emptyFunction,
    config := { messageCheckInterval := .number 1000, messageTimeout := .number 5000 },
    transportProvider := .object 2,
    messageTracker := { timeout := .number 5000, checkInterval := .number 1000, entries := [] } }

/-- Surroundings whose filter accepts the string `"reply"` and whose transport never
replies from inside `send`. -/
def demoEnv : Env :=
  { call := fun _ m => m == .string "reply", replies := fun _ => [] }

/-- Surroundings whose transport answers every `send` with `"reply"` before returning. -/
def echoEnv : Env :=
  { call := fun _ m => m == .string "reply", replies := fun _ => [.string "reply"] }

/-- The demo client with a transport that reports it is connected. -/
def demoConnected : St := { boot demoHeap demoClient with isConnected := .bool true }

/-- A configuration (object 1) whose `messageFilter` is the number 42. -/
def laxHeap : Heap :=
  [(1, [("transportProvider", .object 2), ("messageFilter", .number 42)]),
   (2, [("onMessage", .function 14), ("onDisconnect", .function 15)])]

/-- Two requests on a connected transport: object 21 is sent at time 0 and object 22 at
time 3000; the sweep runs at time 5000, when only the first has expired. -/
def twoRequests : St :=
  run demoEnv demoConnected
    [.sendRequest (.object 21) .undefined, .tick 3000, .sendRequest (.object 22) .undefined,
     .tick 2000, .sweep]

/-- Object 21 is sent on a connected transport, then the transport drops and the call
`sendRequest` for object 22 is refused; the sweep runs at time 5000. -/
def requestThenRefused : St :=
  run demoEnv demoConnected
    [.sendRequest (.object 21) .undefined, .transportReports (.bool false),
     .sendRequest (.object 22) .undefined, .tick 5000, .sweep]

/-! ## States used in the proofs -/

/-- The state `sendRequest` has reached on a connected transport right before it calls
`send`: `TIMEOUT_EXCEEDED.data` assigned and the request registered. -/
def afterRegister (s : St) (req cb : JsVal) : St :=
  { s with
    errors := s.errors.setData .TIMEOUT_EXCEEDED req,
    client := { s.client with messageTracker :=
      (s.client.messageTracker.register s.clock s.nextPromise req
        (prop s.heap s.client.c "messageFilter") .TIMEOUT_EXCEEDED cb).2 },
    nextPromise := s.nextPromise + 1,
    trace := s.trace ++ [Event.register
      (s.client.messageTracker.register s.clock s.nextPromise req
        (prop s.heap s.client.c "messageFilter") .TIMEOUT_EXCEEDED cb).1] }

/-- Relation between the states before and after inbound dispatch: nothing is sent or
registered, the tracked set only shrinks, and all else stays. -/
structure Dispatched (s t : St) : Prop where
  heap : t.heap = s.heap
  errors : t.errors = s.errors
  isConnected : t.isConnected = s.isConnected
  clock : t.clock = s.clock
  nextPromise : t.nextPromise = s.nextPromise
  c : t.client.c = s.client.c
  connected : t.client.connected = s.client.connected
  onMatched : t.client.onMatchedMessage = s.client.onMatchedMessage
  onUnmatched : t.client.onUnmatchedMessage = s.client.onUnmatchedMessage
  entries : t.client.messageTracker.entries.Sublist s.client.messageTracker.entries
  trace : ∃ evs, t.trace = s.trace ++ evs ∧ sends evs = [] ∧ registrations evs = []

/-! ## Lemmas -/

theorem sends_append (a b : List Event) : sends (a ++ b) = sends a ++ sends b := by
  simp [sends, List.filterMap_append]

theorem registrations_append (a b : List Event) :
    registrations (a ++ b) = registrations a ++ registrations b := by
  simp [registrations, List.filterMap_append]

theorem firstMatch_find (call : JsVal → JsVal → Bool) (m : JsVal) (es : List PendingEntry) :
    (firstMatch call m es).map Prod.fst = es.find? (fun e => call e.filter m) := by
  induction es with
  | nil => rfl
  | cons e es ih =>
    by_cases hc : call e.filter m = true
    · simp [firstMatch, hc]
    · simp only [firstMatch, hc, List.find?_cons, ← ih]
      cases firstMatch call m es <;> simp

theorem firstMatch_sublist (call : JsVal → JsVal → Bool) (m : JsVal) :
    ∀ (es : List PendingEntry) (x : PendingEntry) (rest : List PendingEntry),
      firstMatch call m es = some (x, rest) → rest.Sublist es := by
  intro es
  induction es with
  | nil => intro x rest h; simp [firstMatch] at h
  | cons e es ih =>
    intro x rest h
    by_cases hc : call e.filter m = true
    · simp [firstMatch, hc] at h
      rw [← h.2]
      exact List.sublist_cons_self e es
    · simp only [firstMatch, hc] at h
      cases hf : firstMatch call m es with
      | none => simp [hf] at h
      | some pr =>
        obtain ⟨y, r⟩ := pr
        simp [hf] at h
        rw [← h.2]
        exact (ih y r hf).cons₂ e

/-- What `onMessage` does to the state, by whether an entry matches. -/
theorem onMessage_eq (env : Env) (s : St) (m : JsVal) :
    onMessage env s m =
      match firstMatch env.call m s.client.messageTracker.entries with
      | some (e, rest) =>
        { s with
          client := { s.client with messageTracker := { s.client.messageTracker with entries := rest } },
          trace := s.trace ++ [Event.resolve e.promise m] ++
            [Event.onMatchedMessage s.client.onMatchedMessage m] }
      | none =>
        { s with trace := s.trace ++ [Event.onUnmatchedMessage s.client.onUnmatchedMessage m] } := by
  unfold onMessage MessageTracker.matchMessage
  cases hf : firstMatch env.call m s.client.messageTracker.entries with
  | none => simp
  | some pr => obtain ⟨e, rest⟩ := pr; simp

theorem Dispatched.refl (s : St) : Dispatched s s :=
  ⟨rfl, rfl, rfl, rfl, rfl, rfl, rfl, rfl, rfl, List.Sublist.refl _, [], by simp, rfl, rfl⟩

theorem Dispatched.trans {s t u : St} (a : Dispatched s t) (b : Dispatched t u) :
    Dispatched s u := by
  obtain ⟨e1, h1, hs1, hr1⟩ := a.trace
  obtain ⟨e2, h2, hs2, hr2⟩ := b.trace
  refine ⟨b.heap.trans a.heap, b.errors.trans a.errors, b.isConnected.trans a.isConnected,
    b.clock.trans a.clock, b.nextPromise.trans a.nextPromise, b.c.trans a.c,
    b.connected.trans a.connected, b.onMatched.trans a.onMatched,
    b.onUnmatched.trans a.onUnmatched, b.entries.trans a.entries, e1 ++ e2, ?_, ?_, ?_⟩
  · rw [h2, h1, List.append_assoc]
  · rw [sends_append, hs1, hs2]; rfl
  · rw [registrations_append, hr1, hr2]; rfl

theorem onMessage_dispatched (env : Env) (s : St) (m : JsVal) :
    Dispatched s (onMessage env s m) := by
  rw [onMessage_eq]
  cases hf : firstMatch env.call m s.client.messageTracker.entries with
  | none =>
    exact ⟨rfl, rfl, rfl, rfl, rfl, rfl, rfl, rfl, rfl, List.Sublist.refl _, _, rfl, rfl, rfl⟩
  | some pr =>
    obtain ⟨e, rest⟩ := pr
    exact ⟨rfl, rfl, rfl, rfl, rfl, rfl, rfl, rfl, rfl, firstMatch_sublist _ _ _ _ _ hf,
      _, List.append_assoc _ _ _, rfl, rfl⟩

theorem foldl_onMessage_dispatched (env : Env) (ms : List JsVal) :
    ∀ s : St, Dispatched s (ms.foldl (onMessage env) s) := by
  induction ms with
  | nil => intro s; exact Dispatched.refl s
  | cons m ms ih =>
    intro s
    exact (onMessage_dispatched env s m).trans (ih _)

/-- Effect of `transportProvider.send(payload)`: one send, then inbound dispatch only. -/
theorem transportSend_spec (env : Env) (s : St) (payload : JsVal) :
    ∃ rest, (transportSend env s payload).trace = s.trace ++ Event.transportSend payload :: rest ∧
      sends rest = [] ∧ registrations rest = [] ∧
      Dispatched { s with trace := s.trace ++ [Event.transportSend payload] }
        (transportSend env s payload) := by
  have d := foldl_onMessage_dispatched env (env.replies payload)
    { s with trace := s.trace ++ [Event.transportSend payload] }
  obtain ⟨evs, h, hs, hr⟩ := d.trace
  refine ⟨evs, ?_, hs, hr, d⟩
  unfold transportSend
  rw [h]
  simp

/-- With a matching entry appended last, a message always finds a match, and finds that
entry when no older one matches. -/
theorem firstMatch_append_hit (call : JsVal → JsVal → Bool) (m : JsVal) (e : PendingEntry)
    (he : call e.filter m = true) :
    ∀ es : List PendingEntry, ∃ x rest, firstMatch call m (es ++ [e]) = some (x, rest) ∧
      ((∀ y ∈ es, call y.filter m = false) → x = e ∧ rest = es) := by
  intro es
  induction es with
  | nil => exact ⟨e, [], by simp [firstMatch, he], fun _ => ⟨rfl, rfl⟩⟩
  | cons a es ih =>
    obtain ⟨x, rest, hx, hall⟩ := ih
    by_cases ha : call a.filter m = true
    · refine ⟨a, es ++ [e], by simp [firstMatch, ha], ?_⟩
      intro h
      have := h a (List.mem_cons_self a es)
      simp [ha] at this
    · refine ⟨x, a :: rest, by simp [firstMatch, ha, hx], ?_⟩
      intro h
      obtain ⟨h1, h2⟩ := hall (fun y hy => h y (List.mem_cons_of_mem a hy))
      exact ⟨h1, by rw [h2]⟩

/-! ## The claims -/

/-- C10: the eight built-in error values carry exactly the codes and messages of the
table; every code is a negative integer, every message is non-empty, and the eight codes
are pairwise distinct. -/
theorem builtin_errors_match_table :
    builtinErrors.map (fun p => (p.1, codeAndMessage p.2)) =
      [("PARSE_ERROR", some (-32700, "Parse error")),
       ("INVALID_REQUEST", some (-32600, "Invalid Request")),
       ("METHOD_NOT_FOUND", some (-32601, "Method not found")),
       ("INVALID_PARAMS", some (-32602, "Invalid params")),
       ("INTERNAL_ERROR", some (-32603, "Internal error")),
       ("NO_ERROR", some (-32000, "No error")),
       ("TIMEOUT_EXCEEDED", some (-32001, "Waiting for response timeout exceeded")),
       ("INVALID_STATE_ERR", some (-32002, "WebSocket is already in CLOSING or CLOSED state"))] ∧
    (∀ p ∈ builtinErrors, ∃ n msg, codeAndMessage p.2 = some (n, msg) ∧ n < 0 ∧ msg ≠ "") ∧
    (builtinErrors.map (fun p => p.2.code)).Nodup := by
  refine ⟨rfl, ?_, by decide⟩
  intro p hp
  simp only [builtinErrors, List.mem_cons, List.mem_singleton, List.not_mem_nil, or_false] at hp
  rcases hp with h | h | h | h | h | h | h | h <;> subst h <;>
    exact ⟨_, _, rfl, by decide, by decide⟩

/-- C1: when `transportProvider.isConnected()` is not `true`, `sendRequest(req)` records
no effect at all (so no `send` and no `register`), leaves the client and its tracker as
they were, and returns a promise already rejected with `RpcClient.ERRORS.INVALID_STATE_ERR`. -/
theorem sendRequest_when_not_connected (env : Env) (s : St) (req cb : JsVal)
    (h : s.isConnected ≠ JsVal.bool true) :
    (sendRequest env s req cb).1 = Promise.rejected (.errorObject .INVALID_STATE_ERR) ∧
    (sendRequest env s req cb).2.trace = s.trace ∧
    sends (sendRequest env s req cb).2.trace = sends s.trace ∧
    registrations (sendRequest env s req cb).2.trace = registrations s.trace ∧
    (sendRequest env s req cb).2.client = s.client ∧
    (sendRequest env s req cb).2.errors.INVALID_STATE_ERR = s.errors.INVALID_STATE_ERR := by
  simp [sendRequest, h, Errors.setData]

/-- The hypothesis of C1 holds for the demo client right after construction. -/
theorem sendRequest_when_not_connected_witness :
    (boot demoHeap demoClient).isConnected ≠ JsVal.bool true ∧
    (sendRequest echoEnv (boot demoHeap demoClient) (.string "ping") .undefined).1 =
      Promise.rejected (.errorObject .INVALID_STATE_ERR) ∧
    (sendRequest echoEnv (boot demoHeap demoClient) (.string "ping") .undefined).2.trace = [] :=
  ⟨by decide,
   (sendRequest_when_not_connected echoEnv (boot demoHeap demoClient) (.string "ping")
      .undefined (by decide)).1,
   (sendRequest_when_not_connected echoEnv (boot demoHeap demoClient) (.string "ping")
      .undefined (by decide)).2.1⟩

/-- C4: `sendEvent(evt)` on a transport that is not connected returns
`RpcClient.ERRORS.INVALID_STATE_ERR` and changes nothing; on a connected transport it
returns `RpcClient.ERRORS.NO_ERROR` and calls `send` exactly once, with `evt`. In both
cases nothing is registered with the tracker. -/
theorem sendEvent_contract (env : Env) (s : St) (evt : JsVal) :
    (s.isConnected ≠ JsVal.bool true →
      sendEvent env s evt = (ErrorRef.INVALID_STATE_ERR, s)) ∧
    (s.isConnected = JsVal.bool true →
      (sendEvent env s evt).1 = ErrorRef.NO_ERROR ∧
      sends (sendEvent env s evt).2.trace = sends s.trace ++ [evt] ∧
      ∃ rest, (sendEvent env s evt).2.trace = s.trace ++ Event.transportSend evt :: rest ∧
        sends rest = []) ∧
    registrations (sendEvent env s evt).2.trace = registrations s.trace ∧
    (sendEvent env s evt).2.client.messageTracker.entries.Sublist
      s.client.messageTracker.entries := by
  by_cases hc : s.isConnected = JsVal.bool true
  · obtain ⟨rest, ht, hs, hr, d⟩ := transportSend_spec env s evt
    have e1 : (sendEvent env s evt).2 = transportSend env s evt := by simp [sendEvent, hc]
    refine ⟨fun h => absurd hc h, fun _ => ⟨by simp [sendEvent, hc], ?_, rest, ?_, hs⟩, ?_, ?_⟩
    · rw [e1, ht, sends_append]
      have : sends (Event.transportSend evt :: rest) = evt :: sends rest := by
        simp [sends]
      rw [this, hs]
    · rw [e1, ht]
    · rw [e1, ht, registrations_append]
      have : registrations (Event.transportSend evt :: rest) = registrations rest := by
        simp [registrations]
      rw [this, hr]; simp
    · rw [e1]; exact d.entries
  · refine ⟨fun _ => by simp [sendEvent, hc], fun h => absurd h hc, ?_, ?_⟩
    · simp [sendEvent, hc]
    · simp [sendEvent, hc]

/-- C3: on a connected transport `sendRequest(req, enableCallbacks)` registers the request
(message `req`, filter `c.messageFilter`, `params.enableCallbacks` the argument, timeout
value `TIMEOUT_EXCEEDED`) and only then calls `send`, once and with `req`; it returns the
promise of that registration. A reply the transport delivers from inside `send` and that
the filter accepts is therefore matched, by this request when no older one accepts it. -/
theorem sendRequest_registers_then_sends (env : Env) (s : St) (req cb : JsVal)
    (hc : s.isConnected = JsVal.bool true) :
    ∃ (e : PendingEntry) (rest : List Event),
      (sendRequest env s req cb).1 = Promise.pending e.promise ∧
      e.promise = s.nextPromise ∧ e.message = req ∧
      e.filter = prop s.heap s.client.c "messageFilter" ∧ e.enableCallbacks = cb ∧
      e.timeoutRejectWith = ErrorRef.TIMEOUT_EXCEEDED ∧
      (sendRequest env s req cb).2.trace =
        s.trace ++ Event.register e :: Event.transportSend req :: rest ∧
      sends rest = [] ∧ registrations rest = [] ∧
      (∀ m ms, env.replies req = m :: ms → env.call e.filter m = true →
        ∃ p tail,
          rest = Event.resolve p m :: Event.onMatchedMessage s.client.onMatchedMessage m :: tail ∧
          ((∀ x ∈ s.client.messageTracker.entries, env.call x.filter m = false) →
            p = e.promise)) := by
  have e1 : sendRequest env s req cb =
      (Promise.pending s.nextPromise, transportSend env (afterRegister s req cb) req) := by
    unfold sendRequest
    exact if_pos hc
  obtain ⟨rest, ht, hs, hr, -⟩ := transportSend_spec env (afterRegister s req cb) req
  refine ⟨(s.client.messageTracker.register s.clock s.nextPromise req
      (prop s.heap s.client.c "messageFilter") .TIMEOUT_EXCEEDED cb).1, rest,
    by rw [e1]; rfl, rfl, rfl, rfl, rfl, rfl, ?_, hs, hr, ?_⟩
  · rw [e1]
    show (transportSend env (afterRegister s req cb) req).trace = _
    rw [ht]
    simp [afterRegister]
  · intro m ms hrep hm
    obtain ⟨x, remaining, hx, hfirst⟩ := firstMatch_append_hit env.call m _ hm
      s.client.messageTracker.entries
    unfold transportSend at ht
    rw [hrep, List.foldl_cons, onMessage_eq] at ht
    simp only [afterRegister, MessageTracker.register] at ht hx
    simp only [hx] at ht
    obtain ⟨evs, hevs, -, -⟩ := (foldl_onMessage_dispatched env ms _).trace
    rw [hevs] at ht
    simp only [List.append_assoc, List.singleton_append, List.cons_append, List.nil_append,
      List.append_cancel_left_eq, List.cons.injEq, true_and] at ht
    exact ⟨x.promise, evs, ht.symm, fun h => by rw [(hfirst h).1]⟩

/-- The hypothesis of C3 holds for the demo client on a connected transport. -/
theorem sendRequest_registers_then_sends_witness :
    demoConnected.isConnected = JsVal.bool true ∧
    ∃ (e : PendingEntry) (rest : List Event),
      (sendRequest echoEnv demoConnected (.string "ping") (.bool false)).1 =
        Promise.pending e.promise ∧
      (sendRequest echoEnv demoConnected (.string "ping") (.bool false)).2.trace =
        demoConnected.trace ++ Event.register e :: Event.transportSend (.string "ping") :: rest := by
  refine ⟨rfl, ?_⟩
  obtain ⟨e, rest, h1, -, -, -, -, -, h2, -⟩ :=
    sendRequest_registers_then_sends echoEnv demoConnected (.string "ping") (.bool false) rfl
  exact ⟨e, rest, h1, h2⟩

/-- C5: for every inbound message `m` the handler `onMessage` invokes exactly one hook,
once, on `m`: `onMatchedMessage` when some pending entry's filter accepts `m` (which is
when the tracker's `matchMessage` returns false, its result telling whether the message
was unmatched), after the oldest such entry is resolved with `m`; and
`onUnmatchedMessage` when no pending entry accepts `m`. -/
theorem onMessage_invokes_one_hook (env : Env) (s : St) (m : JsVal) :
    ((s.client.messageTracker.matchMessage env.call m).1 = false ↔
      ∃ e ∈ s.client.messageTracker.entries, env.call e.filter m = true) ∧
    (onMessage env s m).trace = s.trace ++
      (match s.client.messageTracker.entries.find? (fun e => env.call e.filter m) with
       | some e => [Event.resolve e.promise m,
                    Event.onMatchedMessage s.client.onMatchedMessage m]
       | none => [Event.onUnmatchedMessage s.client.onUnmatchedMessage m]) ∧
    hookCalls ((onMessage env s m).trace.drop s.trace.length) =
      [if (s.client.messageTracker.matchMessage env.call m).1 = false
       then Event.onMatchedMessage s.client.onMatchedMessage m
       else Event.onUnmatchedMessage s.client.onUnmatchedMessage m] := by
  have hfind := firstMatch_find env.call m s.client.messageTracker.entries
  have htr := onMessage_eq env s m
  cases hf : firstMatch env.call m s.client.messageTracker.entries with
  | none =>
    rw [hf] at hfind htr
    have hnone : s.client.messageTracker.entries.find? (fun e => env.call e.filter m) = none := by
      rw [← hfind]; rfl
    have hm : (s.client.messageTracker.matchMessage env.call m).1 = true := by
      simp [MessageTracker.matchMessage, hf]
    refine ⟨?_, ?_, ?_⟩
    · rw [hm]
      simp only [Bool.true_eq_false, false_iff, not_exists, not_and]
      intro e he hc
      have := List.find?_eq_none.mp hnone e he
      simp [hc] at this
    · rw [htr, hnone]
    · rw [htr, hm]
      simp [hookCalls]
  | some pr =>
    obtain ⟨e, rest⟩ := pr
    rw [hf] at hfind htr
    have hsome : s.client.messageTracker.entries.find? (fun e => env.call e.filter m) = some e := by
      rw [← hfind]; rfl
    have hm : (s.client.messageTracker.matchMessage env.call m).1 = false := by
      simp [MessageTracker.matchMessage, hf]
    refine ⟨?_, ?_, ?_⟩
    · rw [hm]
      simp only [true_iff]
      exact ⟨e, List.mem_of_find?_eq_some hsome, by simpa using List.find?_some hsome⟩
    · rw [htr, hsome]
      simp
    · rw [htr, hm]
      simp [hookCalls]

/-- C7: `connect()` emits `connecting` and then calls the transport's `connect`, both
before it returns its promise, which is still pending; when the transport's promise
resolves, `connected` is emitted once and then the returned promise resolves; when it
rejects with `e`, nothing is emitted and the returned promise rejects with `e` itself. -/
theorem connect_signal_order (s : St) (e : JsVal) :
    (connect s).1 = Promise.pending s.nextPromise ∧
    (connect s).2.trace =
      s.trace ++ [Event.emit "connecting" [], Event.transportConnect s.nextPromise] ∧
    (connectSettled (connect s).2 s.nextPromise .resolves).trace =
      s.trace ++ [Event.emit "connecting" [], Event.transportConnect s.nextPromise,
        Event.emit "connected" [], Event.resolve s.nextPromise .undefined] ∧
    (connectSettled (connect s).2 s.nextPromise (.rejects e)).trace =
      s.trace ++ [Event.emit "connecting" [], Event.transportConnect s.nextPromise,
        Event.reject s.nextPromise (.value e)] ∧
    (∀ (t : St) (p : Nat),
      (connectSettled t p .resolves).trace =
        t.trace ++ [Event.emit "connected" [], Event.resolve p .undefined] ∧
      (connectSettled t p (.rejects e)).trace = t.trace ++ [Event.reject p (.value e)]) := by
  refine ⟨rfl, rfl, ?_, ?_, fun t p => ⟨rfl, rfl⟩⟩
  · simp [connectSettled, connect]
  · simp [connectSettled, connect]

/-- C9: `RpcError(o)` does not build an error value for any `o`, with or without `new`:
line 15 tests `typeof args`, and `args` is declared nowhere, so where the global scope has
no `args` either the test is always true and the function throws
`Error("Required parameters object not present")`, also when `o.code` is an integer. -/
theorem RpcError_throws_for_every_argument (h : Heap) (calledWithNew : Bool) (o : JsVal) :
    RpcError none h calledWithNew o =
      Except.error (Thrown.error "Required parameters object not present") ∧
    RpcError none [(7, [("code", .number (-32000)), ("message", .string "x")])] false
        (.object 7) =
      Except.error (Thrown.error "Required parameters object not present") := by
  refine ⟨?_, rfl⟩
  cases calledWithNew <;> rfl

theorem RpcClient_connected (h : Heap) (c : JsVal) (cl : Client)
    (hc : RpcClient h c = .ok cl) : cl.connected = false := by
  unfold RpcClient at hc
  simp only [bind, Except.bind, pure, Except.pure, throw, throwThe, MonadExceptOf.throw] at hc
  repeat' split at hc
  all_goals first | (cases hc; rfl) | cases hc

theorem transportSend_connected (env : Env) (s : St) (payload : JsVal) :
    (transportSend env s payload).client.connected = s.client.connected := by
  obtain ⟨_, -, -, -, d⟩ := transportSend_spec env s payload
  exact d.connected

/-- No action writes the variable `connected`. -/
theorem step_connected (env : Env) (s : St) (a : Action) :
    (step env s a).client.connected = s.client.connected := by
  cases a with
  | connect => rfl
  | connectSettled p o => cases o <;> rfl
  | sendRequest req cb =>
    by_cases hc : s.isConnected = JsVal.bool true
    · have e1 : sendRequest env s req cb =
          (Promise.pending s.nextPromise, transportSend env (afterRegister s req cb) req) := by
        unfold sendRequest
        exact if_pos hc
      show (sendRequest env s req cb).2.client.connected = _
      rw [e1]
      exact transportSend_connected env _ req
    · have e1 : sendRequest env s req cb =
          (Promise.rejected (.errorObject .INVALID_STATE_ERR),
            { s with errors := s.errors.setData .TIMEOUT_EXCEEDED req }) := by
        unfold sendRequest
        exact if_neg hc
      show (sendRequest env s req cb).2.client.connected = _
      rw [e1]
  | sendEvent evt =>
    show (sendEvent env s evt).2.client.connected = _
    unfold sendEvent
    split
    · exact transportSend_connected env s evt
    · rfl
  | disconnect => rfl
  | message m => exact (onMessage_dispatched env s m).connected
  | disconnected evt => rfl
  | transportReports v => rfl
  | tick ms => rfl
  | sweep => rfl

theorem run_connected (env : Env) (as : List Action) :
    ∀ s : St, (run env s as).client.connected = s.client.connected := by
  induction as with
  | nil => intro s; rfl
  | cons a as ih =>
    intro s
    show (run env (step env s a) as).client.connected = _
    rw [ih, step_connected]

/-- C6: the getter `connected` does not follow the connection: the variable it reads is
set to `false` by the constructor and written nowhere else, so after every sequence of
method calls and transport events, a successful `connect()` included, it yields `false`. -/
theorem connected_getter_never_true (env : Env) (h : Heap) (c : JsVal) (cl : Client)
    (as : List Action) (hc : RpcClient h c = .ok cl) :
    connectedGetter (run env (boot h cl) as) = false := by
  unfold connectedGetter
  rw [run_connected]
  exact RpcClient_connected h c cl hc

/-- C6 at the demo client: `connect()` succeeds, `connected` is emitted, and the getter
still yields `false`. -/
theorem connected_getter_never_true_witness :
    RpcClient demoHeap (.object 1) = .ok demoClient ∧
    (run demoEnv (boot demoHeap demoClient)
      [.connect, .transportReports (.bool true), .connectSettled 0 .resolves]).trace =
      [Event.emit "connecting" [], Event.transportConnect 0, Event.emit "connected" [],
       Event.resolve 0 .undefined] ∧
    connectedGetter (run demoEnv (boot demoHeap demoClient)
      [.connect, .transportReports (.bool true), .connectSettled 0 .resolves]) = false :=
  ⟨rfl, by decide,
   connected_getter_never_true demoEnv demoHeap (.object 1) demoClient _ rfl⟩

/-- C2: a later `sendRequest` overwrites the `data` of the one shared
`TIMEOUT_EXCEEDED` object. When the request object 21 (promise 0) times out after object
22 was passed to `sendRequest`, on a connected transport or not, promise 0 is rejected
with `RpcClient.ERRORS.TIMEOUT_EXCEEDED` whose `data` is object 22, not object 21. -/
theorem timeout_data_is_latest_request :
    twoRequests.trace.drop 4 = [Event.reject 0 (.errorObject .TIMEOUT_EXCEEDED)] ∧
    registrations twoRequests.trace =
      [{ promise := 0, message := .object 21, filter := .function 3,
         timeoutRejectWith := .TIMEOUT_EXCEEDED, enableCallbacks := .undefined,
         expiry := some 5000 },
       { promise := 1, message := .object 22, filter := .function 3,
         timeoutRejectWith := .TIMEOUT_EXCEEDED, enableCallbacks := .undefined,
         expiry := some 8000 }] ∧
    (twoRequests.errors.deref .TIMEOUT_EXCEEDED).data = .object 22 ∧
    requestThenRefused.trace.drop 2 = [Event.reject 0 (.errorObject .TIMEOUT_EXCEEDED)] ∧
    (requestThenRefused.errors.deref .TIMEOUT_EXCEEDED).data = .object 22 ∧
    JsVal.object 22 ≠ JsVal.object 21 := by
  decide

theorem typeof_undefined_iff (v : JsVal) : typeof v = "undefined" ↔ v = .undefined := by
  cases v <;> simp [typeof]

theorem prop_ne_undefined_object (h : Heap) (c : JsVal) (k : String)
    (hp : prop h c k ≠ .undefined) : ∃ r, c = .object r := by
  cases c <;> first | exact ⟨_, rfl⟩ | exact absurd rfl hp

/-- C8 fails as stated: a configuration whose `messageFilter` is the number 42, which is
not callable, is accepted by the constructor. -/
theorem constructor_accepts_noncallable_filter :
    typeof (prop laxHeap (.object 1) "messageFilter") ≠ "function" ∧
    ∃ cl, RpcClient laxHeap (.object 1) = .ok cl :=
  ⟨by decide, _, rfl⟩

/-- C8, amended: `RpcClient(c)` throws when `c` is `undefined` or `null`, when
`c.transportProvider` is `undefined`, when `c.messageFilter` is `undefined`, and when
`onMatchedMessage` or `onUnmatchedMessage` is supplied and is not a function. Every other
configuration whose transport provider has callable `onMessage` and `onDisconnect`
constructs a client, with `messageCheckInterval` 1000 and `messageTimeout` 5000 when
those are omitted and `emptyFunction` for each hook that is omitted. Whether
`messageFilter` is callable is not checked. -/
theorem RpcClient_validation (h : Heap) (c : JsVal) :
    ((c = .undefined ∨ c = .null) →
      RpcClient h c = .error (.error "Missing configuration object")) ∧
    (c ≠ .undefined → c ≠ .null → prop h c "transportProvider" = .undefined →
      RpcClient h c = .error (.error "Required param 'transportProvider' is not defined")) ∧
    (prop h c "transportProvider" ≠ .undefined → prop h c "messageFilter" = .undefined →
      RpcClient h c = .error (.error "Required param 'messageFilter' is not defined")) ∧
    (prop h c "transportProvider" ≠ .undefined → prop h c "messageFilter" ≠ .undefined →
      ∀ f, (propsOf h c).lookup "onMatchedMessage" = some f → typeof f ≠ "function" →
        RpcClient h c = .error (.error "onMatchedMessage callback is not a function")) ∧
    (prop h c "transportProvider" ≠ .undefined → prop h c "messageFilter" ≠ .undefined →
      (∀ f, (propsOf h c).lookup "onMatchedMessage" = some f → typeof f = "function") →
      ∀ f, (propsOf h c).lookup "onUnmatchedMessage" = some f → typeof f ≠ "function" →
        RpcClient h c = .error (.error "onUnmatchedMessage callback is not a function")) ∧
    (prop h c "transportProvider" ≠ .undefined → prop h c "messageFilter" ≠ .undefined →
      (∀ f, (propsOf h c).lookup "onMatchedMessage" = some f → typeof f = "function") →
      (∀ f, (propsOf h c).lookup "onUnmatchedMessage" = some f → typeof f = "function") →
      typeof (prop h (prop h c "transportProvider") "onMessage") = "function" →
      typeof (prop h (prop h c "transportProvider") "onDisconnect") = "function" →
      RpcClient h c = .ok
        { c := c, connected := false,
          onMatchedMessage :=
            ((propsOf h c).lookup "onMatchedMessage").elim Hook.emptyFunction Hook.bound,
          onUnmatchedMessage :=
            ((propsOf h c).lookup "onUnmatchedMessage").elim Hook.emptyFunction Hook.bound,
          config :=
            { messageCheckInterval :=
                ((propsOf h c).lookup "messageCheckInterval").getD (.number 1000),
              messageTimeout := ((propsOf h c).lookup "messageTimeout").getD (.number 5000) },
          transportProvider := prop h c "transportProvider",
          messageTracker :=
            { timeout := ((propsOf h c).lookup "messageTimeout").getD (.number 5000),
              checkInterval := ((propsOf h c).lookup "messageCheckInterval").getD (.number 1000),
              entries := [] } }) := by
  refine ⟨?_, ?_, ?_, ?_, ?_, ?_⟩
  · rintro (rfl | rfl) <;> rfl
  · intro h1 h2 h3
    unfold prop at h3
    cases c <;>
      simp_all [RpcClient, getProp, typeof_undefined_iff, bind, Except.bind, pure, Except.pure,
        throw, throwThe, MonadExceptOf.throw]
  · intro h1 h3
    obtain ⟨r, rfl⟩ := prop_ne_undefined_object h c _ h1
    unfold prop at h1 h3
    simp_all [RpcClient, getProp, typeof_undefined_iff, bind, Except.bind, pure, Except.pure,
        throw, throwThe, MonadExceptOf.throw]
  · intro h1 h3 f hf hty
    obtain ⟨r, rfl⟩ := prop_ne_undefined_object h c _ h1
    unfold prop at h1 h3
    simp_all [RpcClient, getProp, hasProp, typeof_undefined_iff, bind, Except.bind, pure,
        Except.pure, throw, throwThe, MonadExceptOf.throw]
  · intro h1 h3 hm f hf hty
    obtain ⟨r, rfl⟩ := prop_ne_undefined_object h c _ h1
    unfold prop at h1 h3
    cases hl : (propsOf h (.object r)).lookup "onMatchedMessage" with
    | none =>
      simp [RpcClient, getProp, hasProp, typeof_undefined_iff, bind, Except.bind, pure,
        Except.pure, throw, throwThe, MonadExceptOf.throw, h1, h3, hl, hf, hty]
    | some g =>
      have hg := hm g hl
      simp [RpcClient, getProp, hasProp, typeof_undefined_iff, bind, Except.bind, pure,
        Except.pure, throw, throwThe, MonadExceptOf.throw, h1, h3, hl, hf, hty, hg]
  · intro h1 h3 hm hu t1 t2
    obtain ⟨r, rfl⟩ := prop_ne_undefined_object h c _ h1
    have hnn : ∀ k, getProp h (prop h (.object r) "transportProvider") k =
        .ok (prop h (prop h (.object r) "transportProvider") k) := by
      intro k
      cases hv : prop h (.object r) "transportProvider" <;>
        first | rfl | (rw [hv] at t1; exact absurd t1 (by simp [prop, propsOf, typeof]))
    have c1 : callMethod h (prop h (.object r) "transportProvider") "onMessage" = .ok () := by
      simp [callMethod, hnn, t1, bind, Except.bind, pure, Except.pure]
    have c2 : callMethod h (prop h (.object r) "transportProvider") "onDisconnect" = .ok () := by
      simp [callMethod, hnn, t2, bind, Except.bind, pure, Except.pure]
    have g : ∀ k, getProp h (.object r) k = .ok (prop h (.object r) k) := fun _ => rfl
    have hp : ∀ k, hasProp h k (.object r) = .ok ((propsOf h (.object r)).lookup k).isSome :=
      fun _ => rfl
    have t0 : typeof (prop h (.object r) "transportProvider") ≠ "undefined" :=
      fun e => h1 ((typeof_undefined_iff _).mp e)
    have t3 : typeof (prop h (.object r) "messageFilter") ≠ "undefined" :=
      fun e => h3 ((typeof_undefined_iff _).mp e)
    unfold RpcClient
    simp only [g, hp, c1, c2, t0, t3, bind, Except.bind, pure, Except.pure, if_false]
    have e0 : ¬(typeof (JsVal.object r) = "undefined" ∨ JsVal.object r = JsVal.null) := by
      simp [typeof]
    rw [if_neg e0]
    have p1 : ∀ k, prop h (.object r) k = ((propsOf h (.object r)).lookup k).getD .undefined :=
      fun _ => rfl
    rw [p1 "onMatchedMessage", p1 "onUnmatchedMessage", p1 "messageCheckInterval",
      p1 "messageTimeout"]
    generalize (propsOf h (.object r)).lookup "onMatchedMessage" = om at hm ⊢
    generalize (propsOf h (.object r)).lookup "onUnmatchedMessage" = ou at hu ⊢
    generalize (propsOf h (.object r)).lookup "messageCheckInterval" = ci
    generalize (propsOf h (.object r)).lookup "messageTimeout" = mt
    cases om <;> cases ou <;> cases ci <;> cases mt <;> simp_all

/-- The valid case of C8 at the demo configuration: it constructs `demoClient`. -/
theorem RpcClient_validation_witness :
    RpcClient demoHeap (.object 1) = .ok demoClient :=
  (RpcClient_validation demoHeap (.object 1)).2.2.2.2.2 (by decide) (by decide)
    (by decide) (by decide) (by decide) (by decide)

end RpcClientJs
